import Mathlib

/-!
Verification development for the Pantheon-Web P2P client.

This file gives a shallow embedding, in Lean, of the state and operations of
two services of the repository:

* `TurnService` (src/services/turnService.ts): the TURN/STUN credential cache
  (`getTurnServers`, `fetchTurnToken`, `clearCache`);
* `P2PClientServiceV2` (src/services, the Socket.io + simple-peer client):
  WebRTC signal dispatch (`handleWebRTCSignal`), peer creation
  (`createPeerConnection`), the per-peer close handler, request correlation
  (`sendRequestToPeer`) and the reconnect scheduler (`scheduleReconnect`).

JavaScript `Map`/`Set` state is embedded as association lists over `String`
keys; `Date.now()` is an explicit `Nat` parameter; promises are explicit
identifiers whose settlement is a separate transition; async functions with
internal `await` points are split at those points into a start step and a
resume step so that signals arriving during an outstanding credential fetch
can be interleaved, as they are at runtime.
-/

namespace PantheonWeb

/-- Association-list lookup keyed by `String`, embedding `Map.get`. -/
def mapGet {α : Type} (m : List (String × α)) (k : String) : Option α :=
  m.lookup k

/-- Embeds `Map.delete`: remove every binding of key `k`. -/
def mapDelete {α : Type} (m : List (String × α)) (k : String) : List (String × α) :=
  m.filter (fun p => p.1 ≠ k)

/-- Embeds `Map.set`: bind `k` to `v` (the modeled claims depend only on the
key-value mapping, not on JS `Map` iteration order). -/
def mapSet {α : Type} (m : List (String × α)) (k : String) (v : α) : List (String × α) :=
  (k, v) :: mapDelete m k

/-- Embeds `Set.has`. -/
def setHas (s : List String) (k : String) : Bool :=
  s.contains k

/-- Embeds `Set.add`. -/
def setAdd (s : List String) (k : String) : List String :=
  if s.contains k then s else k :: s

/-- Embeds `Set.delete`. -/
def setDelete (s : List String) (k : String) : List String :=
  s.filter (fun x => x ≠ k)

/-! ## TurnService (src/services/turnService.ts) -/

/-- An `RTCIceServer` descriptor as the service builds and consumes it. -/
structure IceServer where
  urls : String
  username : Option String
  credential : Option String
deriving DecidableEq

/-- The `/turn-token` endpoint response (`TurnTokenResponse`): `ice_servers`
may be absent at runtime (Twilio returns bare credentials), `ttl` is in
seconds, `username`/`password` are the optional raw relay credentials. -/
structure TurnTokenResponse where
  ice_servers : Option (List IceServer)
  ttl : Nat
  username : Option String
  password : Option String
deriving DecidableEq

/-- JS truthiness of an optional string field: `undefined`, `null` and the
empty string are falsy. -/
def truthyStr : Option String → Bool
  | none => false
  | some s => s ≠ ""

/-- The post-processing tail of `TurnService.fetchTurnToken` (lines 141-164):
when the response has no `ice_servers` but carries truthy `username` and
`password`, assemble one STUN entry and three TURN entries (udp, tcp, tcp:443)
from those credentials; otherwise return the response unchanged. -/
def assembleIceServers (data : TurnTokenResponse) : TurnTokenResponse :=
  match data.ice_servers, data.username, data.password with
  | none, some u, some p =>
    if u ≠ "" && p ≠ "" then
      { data with ice_servers := some [
          ⟨"stun:global.stun.twilio.com:3478", none, none⟩,
          ⟨"turn:global.turn.twilio.com:3478?transport=udp", some u, some p⟩,
          ⟨"turn:global.turn.twilio.com:3478?transport=tcp", some u, some p⟩,
          ⟨"turn:global.turn.twilio.com:443?transport=tcp", some u, some p⟩] }
    else data
  | _, _, _ => data

/-- The mutable fields of the `TurnService` singleton: cached token,
its expiry timestamp (ms), and the in-flight fetch promise (by id). -/
structure TurnServiceState where
  turnToken : Option TurnTokenResponse
  tokenExpiry : Nat
  fetchPromise : Option Nat
deriving DecidableEq

/-- The cache check of `getTurnServers` line 27:
`this.turnToken && Date.now() < this.tokenExpiry`. -/
def cacheValid (st : TurnServiceState) (now : Nat) : Bool :=
  st.turnToken.isSome && decide (now < st.tokenExpiry)

/-- What a `getTurnServers` call does before any `await` completes. -/
inductive GetTurnAction where
  /-- return the normalized cached `ice_servers` (line 29) -/
  | cached
  /-- await the already in-flight fetch promise (lines 33-36) -/
  | awaitExisting (fid : Nat)
  /-- start a new fetch and store its promise (line 39) -/
  | startFetch (fid : Nat)
deriving DecidableEq

/-- The synchronous prefix of `TurnService.getTurnServers` (lines 25-39):
cache check, then in-flight check, then start of a fresh fetch `freshId`. -/
def getTurnServersStep (st : TurnServiceState) (now : Nat) (freshId : Nat) :
    TurnServiceState × GetTurnAction :=
  if cacheValid st now then
    (st, .cached)
  else
    match st.fetchPromise with
    | some fid => (st, .awaitExisting fid)
    | none => ({ st with fetchPromise := some freshId }, .startFetch freshId)

/-- Settlement of the fetch started by `getTurnServers` (lines 41-57): on
success the token is cached and the expiry set to `Date.now() + ttl * 800`
(80% of a TTL given in seconds, in milliseconds); on either outcome the
`finally` block clears `fetchPromise`. -/
def settleFetch (st : TurnServiceState) (settleTime : Nat)
    (result : Except String TurnTokenResponse) : TurnServiceState :=
  match result with
  | .ok tok =>
    { turnToken := some tok, tokenExpiry := settleTime + tok.ttl * 800, fetchPromise := none }
  | .error _ => { st with fetchPromise := none }

/-- `TurnService.clearCache` (lines 171-175). -/
def clearCache (_st : TurnServiceState) : TurnServiceState :=
  { turnToken := none, tokenExpiry := 0, fetchPromise := none }

/-! ## P2PClientServiceV2: peer connections and WebRTC signal dispatch -/

/-- The JavaScript `<` operator on strings (lexicographic comparison of the
character sequences), used by the collision tie-break
`this.currentUserId! < fromUserId`. -/
def jsLt (a b : String) : Bool := decide (a.toList < b.toList)

/-- A WebRTC signal payload as `handleWebRTCSignal` inspects it: `type` is
the SDP type field (`some "offer"`, `some "answer"`, ...) or `none` for a
bare ICE candidate; `payload` identifies the rest of the payload, which the
dispatcher forwards opaquely. -/
structure Signal where
  type : Option String
  payload : Nat
deriving DecidableEq

/-- A `SimplePeer.Instance` together with the fields of its underlying
`RTCPeerConnection` that the service reads: `destroyed` and `connected`
flags, the initiator role it was constructed with, `_pc.signalingState`
(set by the WebRTC stack, read by the dispatcher), and the ordered record
of `peer.signal(...)` calls applied to it. -/
structure PeerConn where
  initiator : Bool
  destroyed : Bool
  connected : Bool
  signalingState : String
  appliedSignals : List Signal
deriving DecidableEq

/-- The mutable fields of the `P2PClientServiceV2` singleton that the
modeled operations touch: `peers`, `connectingPeers`, `queuedSignals`,
`pendingRequests` (outstanding request ids, keyed by requestId only — the
source map carries no peer attribution) and the reconnect counter/status. -/
structure ClientState where
  currentUserId : String
  peers : List (String × PeerConn)
  connectingPeers : List String
  queuedSignals : List (String × List Signal)
  pendingRequests : List String
deriving DecidableEq

/-- How far a single synchronous stretch of `handleWebRTCSignal` got. -/
inductive StartOutcome where
  /-- collision, impolite side: return at line 571, offer ignored -/
  | ignoredOfferImpolite
  /-- already connecting: signal pushed onto `queuedSignals` (line 593) -/
  | queuedSignal
  /-- unknown peer and not an offer: dropped at line 600 -/
  | droppedUnknownNonOffer (t : Option String)
  /-- reached line 611/617: `connectingPeers.add` done, TURN fetch awaited -/
  | fetchStarted
  /-- answer while `signalingState === 'stable'`: ignored at line 707 -/
  | ignoredAnswerStable
  /-- `peer.signal(signal)` executed at line 712 -/
  | applied
  /-- line 717: peer not available or destroyed -/
  | unavailable
deriving DecidableEq

/-- Lines 698-718 of `handleWebRTCSignal`: process `signal` against the live
peer `p`: drop an answer when the signaling state is `stable`, otherwise
apply it via `peer.signal`. -/
def processWithPeer (st : ClientState) (fromUserId : String) (signal : Signal)
    (p : PeerConn) : ClientState × StartOutcome :=
  if !p.destroyed then
    if signal.type = some "answer" && p.signalingState = "stable" then
      (st, .ignoredAnswerStable)
    else
      let p2 := { p with appliedSignals := p.appliedSignals ++ [signal] }
      ({ st with peers := mapSet st.peers fromUserId p2 }, .applied)
  else
    (st, .unavailable)

/-- Lines 584-617 of `handleWebRTCSignal`, entered with no live peer object:
queue the signal if a connection attempt is in progress, drop non-offers,
and otherwise mark the peer as connecting and start the TURN fetch for an
inbound, non-initiator connection. -/
def unknownPeerPath (st : ClientState) (fromUserId : String) (signal : Signal) :
    ClientState × StartOutcome :=
  if setHas st.connectingPeers fromUserId then
    let newQueue := (mapGet st.queuedSignals fromUserId).getD [] ++ [signal]
    ({ st with queuedSignals := mapSet st.queuedSignals fromUserId newQueue }, .queuedSignal)
  else if signal.type ≠ some "offer" then
    (st, .droppedUnknownNonOffer signal.type)
  else if setHas st.connectingPeers fromUserId then
    -- line 604: re-check, dead after the line 585 check returned
    (st, .queuedSignal)
  else
    ({ st with connectingPeers := setAdd st.connectingPeers fromUserId }, .fetchStarted)

/-- Lines 576-617 of `handleWebRTCSignal` after the collision branch, given
the (possibly collision-cleared) peer lookup result. -/
def afterCollision (st : ClientState) (fromUserId : String) (signal : Signal)
    (peer0 : Option PeerConn) : ClientState × StartOutcome :=
  match peer0 with
  | some p =>
    if p.destroyed then
      -- lines 578-582: clean up the destroyed peer object first
      unknownPeerPath
        { st with peers := mapDelete st.peers fromUserId,
                  connectingPeers := setDelete st.connectingPeers fromUserId }
        fromUserId signal
    else
      processWithPeer st fromUserId signal p
  | none => unknownPeerPath st fromUserId signal

/-- The synchronous prefix of `handleWebRTCSignal` (lines 547-617), up to the
`await turnService.getTurnServers()` point of the creation branch. Lines
553-574 resolve an offer collision: when an offer arrives for a live peer
whose signaling state is not `stable`, the side whose `currentUserId` is
lexicographically smaller is polite — it destroys its own attempt and falls
through to accept the offer as non-initiator — and the other side returns,
ignoring the offer. -/
def handleSignalStart (st : ClientState) (fromUserId : String) (signal : Signal) :
    ClientState × StartOutcome :=
  match mapGet st.peers fromUserId with
  | some p =>
    if signal.type = some "offer" && !p.destroyed && p.signalingState ≠ "stable" then
      if jsLt st.currentUserId fromUserId then
        -- polite: peer.destroy(); peers.delete; connectingPeers.delete; peer = null
        afterCollision
          { st with peers := mapDelete st.peers fromUserId,
                    connectingPeers := setDelete st.connectingPeers fromUserId }
          fromUserId signal none
      else
        (st, .ignoredOfferImpolite)
    else
      afterCollision st fromUserId signal (some p)
  | none => afterCollision st fromUserId signal none

/-- The static STUN-only fallback of the inbound creation branch
(lines 636-639). -/
def googleStunFallback : List IceServer :=
  [⟨"stun:stun.l.google.com:19302", none, none⟩,
   ⟨"stun:stun1.l.google.com:19302", none, none⟩]

/-- Result of resuming `handleWebRTCSignal` after the TURN fetch settles:
the new client state, the ICE configuration handed to `new SimplePeer`, the
queued signals replayed (in order), and the outcome for the triggering
signal itself. -/
structure ResumeResult where
  state : ClientState
  usedIceServers : List IceServer
  replayed : List Signal
  finalOutcome : StartOutcome
deriving DecidableEq

/-- Lines 618-719 of `handleWebRTCSignal`: the continuation of the inbound
creation branch once the TURN credential fetch settles with `fetchResult`.
On fetch failure the branch falls back to the two Google STUN servers. A
fresh non-initiator `SimplePeer` is stored, the peer is removed from
`connectingPeers`, the queued signals are replayed in arrival order (each
via `peer.signal`, a small delay apart), the queue entry is deleted, and
control falls through to lines 698-718 for the triggering signal. -/
def handleSignalResume (st : ClientState) (fromUserId : String) (signal : Signal)
    (fetchResult : Except String (List IceServer)) : ResumeResult :=
  let iceServers := match fetchResult with
    | .ok servers => servers
    | .error _ => googleStunFallback
  let newPeer : PeerConn :=
    { initiator := false, destroyed := false, connected := false,
      signalingState := "stable", appliedSignals := [] }
  let st1 : ClientState :=
    { st with peers := mapSet st.peers fromUserId newPeer,
              connectingPeers := setDelete st.connectingPeers fromUserId }
  let queued := (mapGet st1.queuedSignals fromUserId).getD []
  let peerAfterReplay := { newPeer with appliedSignals := queued }
  let st2 : ClientState :=
    if queued.isEmpty then st1
    else
      { st1 with peers := mapSet st1.peers fromUserId peerAfterReplay,
                 queuedSignals := mapDelete st1.queuedSignals fromUserId }
  let out := processWithPeer st2 fromUserId signal peerAfterReplay
  ⟨out.1, iceServers, queued, out.2⟩

/-- One `handleWebRTCSignal` invocation run to completion with no other
event interleaved at its `await` point; `fetchResult` is the outcome the
credential fetch would settle with. -/
def handleWebRTCSignal (st : ClientState) (fromUserId : String) (signal : Signal)
    (fetchResult : Except String (List IceServer)) : ResumeResult :=
  match handleSignalStart st fromUserId signal with
  | (st1, .fetchStarted) => handleSignalResume st1 fromUserId signal fetchResult
  | (st1, out) => ⟨st1, [], [], out⟩

/-! ## P2PClientServiceV2: outbound ICE selection (`createPeerConnection`) -/

/-- The method names defined on `class TurnService`
(src/services/turnService.ts): `getFallbackTurnServers` is not among them. -/
def turnServiceMethods : List String :=
  ["getTurnServers", "normalizeIceServers", "fetchTurnToken", "clearCache"]

/-- Outcome of the ICE-configuration selection of `createPeerConnection`. -/
inductive IceSelection where
  /-- an ICE server list was selected and the attempt proceeds -/
  | ok (servers : List IceServer)
  /-- a `TypeError` escaped: a method was called that the receiver lacks -/
  | jsTypeError (missingMethod : String)
deriving DecidableEq

/-- Lines 820-843 of `createPeerConnection` (the outbound, initiator path):
use the fetched TURN servers on success; on failure the catch block calls
`turnService.getFallbackTurnServers()` — dynamic dispatch is embedded as a
lookup in `turnServiceMethods`, and a missing method raises a `TypeError`
that propagates out of the catch block. -/
def createPeerConnectionIce (fetchResult : Except String (List IceServer)) :
    IceSelection :=
  match fetchResult with
  | .ok servers => .ok servers
  | .error _ =>
    if turnServiceMethods.contains "getFallbackTurnServers" then
      .ok []  -- dead branch: no such method is defined on TurnService
    else
      .jsTypeError "getFallbackTurnServers"

/-! ## P2PClientServiceV2: close handler and request correlation -/

/-- The `peer.on('close')` handler installed by `setupPeerEventHandlers`
(lines 806-811): it deletes the peer from `peers` and nothing else. The
second component is the list of `(requestId, error)` rejections the handler
issues — faithfully empty: the handler does not touch `pendingRequests`. -/
def onPeerClose (st : ClientState) (userId : String) :
    ClientState × List (String × String) :=
  ({ st with peers := mapDelete st.peers userId }, [])

/-- The timeout callback of `sendRequestToPeer` (lines 1059-1063): delete
the request from `pendingRequests` and reject it with `Request timeout`. -/
def onRequestTimeout (st : ClientState) (requestId : String) :
    ClientState × List (String × String) :=
  ({ st with pendingRequests := st.pendingRequests.filter (fun r => r ≠ requestId) },
   [(requestId, "Request timeout")])

/-- Registration part of `sendRequestToPeer` (lines 1031-1083): require a
connected peer, then record the request id in `pendingRequests`. -/
def sendRequestToPeer (st : ClientState) (userId : String) (requestId : String) :
    Except String ClientState :=
  match mapGet st.peers userId with
  | some p =>
    if p.connected then
      .ok { st with pendingRequests := st.pendingRequests ++ [requestId] }
    else
      .error ("Not connected to peer " ++ userId)
  | none => .error ("Not connected to peer " ++ userId)

/-! ## P2PClientServiceV2: signaling-server reconnection -/

/-- `maxReconnectAttempts` (line 387). -/
def maxReconnectAttempts : Nat := 5

/-- `reconnectDelay` in milliseconds (line 388). -/
def reconnectDelay : Nat := 2000

/-- The reconnect-relevant fields of the service: the attempt counter and
the last status surfaced through `updateStatus`. -/
structure ReconnectState where
  reconnectAttempts : Nat
  status : String
  error : Option String
deriving DecidableEq

/-- What one `scheduleReconnect` call did. -/
inductive ReconnectAction where
  /-- a reconnection timer was set for attempt `n` after `delay` ms -/
  | scheduled (n : Nat) (delay : Nat)
  /-- the terminal error status was surfaced; nothing was scheduled -/
  | terminalError (msg : String)
deriving DecidableEq

/-- `P2PClientServiceV2.scheduleReconnect` (lines 1260-1279): at or past the
attempt cap, surface the terminal error status and schedule nothing;
otherwise increment the counter and schedule a retry after
`reconnectDelay * reconnectAttempts` ms. -/
def scheduleReconnect (st : ReconnectState) : ReconnectState × ReconnectAction :=
  if st.reconnectAttempts ≥ maxReconnectAttempts then
    ({ st with status := "error", error := some "Max reconnection attempts reached" },
     .terminalError "Max reconnection attempts reached")
  else
    let n := st.reconnectAttempts + 1
    ({ st with reconnectAttempts := n }, .scheduled n (reconnectDelay * n))

/-- The `connect` handler of `P2PClientServiceV2.connect` (lines 446-449):
a successful connection resets the attempt counter and surfaces
`connected`. -/
def onConnectSuccess (st : ReconnectState) : ReconnectState :=
  { st with reconnectAttempts := 0, status := "connected", error := none }

/-- `n` consecutive non-intentional disconnect events, each of which invokes
`scheduleReconnect` (the `disconnect` handler, lines 535-541), with no
successful reconnection in between; returns the final state and the action
of each call in order. -/
def runDisconnects (st : ReconnectState) : Nat → ReconnectState × List ReconnectAction
  | 0 => (st, [])
  | n + 1 =>
    let step := scheduleReconnect st
    let rest := runDisconnects step.1 n
    (rest.1, step.2 :: rest.2)

/-- Whether a `scheduleReconnect` call surfaced the terminal error. -/
def isTerminalError : ReconnectAction → Bool
  | .terminalError _ => true
  | .scheduled _ _ => false

/-! ## Concrete example states used by the witnesses -/

/-- A live peer object caught mid-negotiation (its own offer is out). -/
def exPeerMid : PeerConn := ⟨true, false, false, "have-local-offer", []⟩

/-- Node with id `a` holding a mid-negotiation attempt toward `b`. -/
def exStA : ClientState := ⟨"a", [("b", exPeerMid)], ["b"], [], []⟩

/-- Node with id `b` holding a mid-negotiation attempt toward `a`. -/
def exStB : ClientState := ⟨"b", [("a", exPeerMid)], ["a"], [], []⟩

/-- A concrete incoming offer signal. -/
def exOffer : Signal := ⟨some "offer", 9⟩

/-- A client mid-credential-fetch for peer `bob` (no connection object yet). -/
def exStQueue : ClientState := ⟨"me", [], ["bob"], [], []⟩

/-- A client with no state about any peer. -/
def exStEmpty : ClientState := ⟨"me", [], [], [], []⟩

/-- A connected, fully negotiated (`stable`) peer object. -/
def exPeerStable : PeerConn := ⟨true, false, true, "stable", []⟩

/-- A client holding one stable connection to `bob`. -/
def exStStable : ClientState := ⟨"me", [("bob", exPeerStable)], [], [], []⟩

/-! ## Helper lemmas about the embedded collection operations -/

theorem jsLt_iff (a b : String) : jsLt a b = true ↔ a < b := by
  simp [jsLt, String.lt_iff_toList_lt]

theorem jsLt_or_of_ne (a b : String) (h : a ≠ b) :
    jsLt a b = true ∨ jsLt b a = true := by
  simp [jsLt, String.lt_iff_toList_lt]
  exact fun hd => h (String.ext hd)

theorem jsLt_asymm (a b : String) (h : jsLt a b = true) : jsLt b a = false := by
  simp [jsLt, String.lt_iff_toList_lt] at *
  exact le_of_lt h

theorem mapGet_mapSet_self {α : Type} (m : List (String × α)) (k : String) (v : α) :
    mapGet (mapSet m k v) k = some v := by
  simp [mapGet, mapSet, List.lookup]

theorem mapGet_mapDelete {α : Type} (m : List (String × α)) (k : String) :
    mapGet (mapDelete m k) k = none := by
  induction m with
  | nil => rfl
  | cons hd tl ih =>
    rcases hd with ⟨a, v⟩
    by_cases h : a = k
    · simpa [mapDelete, h] using ih
    · have hne : (k == a) = false := by
        simp only [beq_eq_false_iff_ne]
        exact fun hh => h hh.symm
      simp only [mapDelete, List.filter, ne_eq, h, not_false_eq_true, decide_not,
        decide_eq_true_eq] at ih ⊢
      simp only [mapGet, List.lookup, hne] at ih ⊢
      simpa using ih

theorem setHas_setDelete (s : List String) (k : String) :
    setHas (setDelete s k) k = false := by
  simp [setHas, setDelete, List.contains_eq_any_beq, List.any_eq_false]

/-! ## Helper lemmas about `handleWebRTCSignal` -/

/-- A signal arriving while the peer is in `connectingPeers` and has no
connection object is pushed onto its queue and nothing else changes. -/
theorem enqueue_step (st : ClientState) (P : String) (q : Signal)
    (hpeer : mapGet st.peers P = none) (hconn : setHas st.connectingPeers P = true) :
    (handleSignalStart st P q).2 = .queuedSignal
    ∧ (handleSignalStart st P q).1.queuedSignals
        = mapSet st.queuedSignals P ((mapGet st.queuedSignals P).getD [] ++ [q])
    ∧ (handleSignalStart st P q).1.peers = st.peers
    ∧ (handleSignalStart st P q).1.connectingPeers = st.connectingPeers
    ∧ (handleSignalStart st P q).1.pendingRequests = st.pendingRequests
    ∧ (handleSignalStart st P q).1.currentUserId = st.currentUserId := by
  simp [handleSignalStart, afterCollision, unknownPeerPath, hpeer, hconn]

/-- Folding a burst of signals that all arrive during the connecting phase
appends them to the peer's queue in arrival order. -/
theorem enqueue_fold_spec (P : String) (sigs : List Signal) :
    ∀ st : ClientState, mapGet st.peers P = none → setHas st.connectingPeers P = true →
      (sigs.foldl (fun s q => (handleSignalStart s P q).1) st).peers = st.peers
      ∧ (sigs.foldl (fun s q => (handleSignalStart s P q).1) st).connectingPeers
          = st.connectingPeers
      ∧ (mapGet (sigs.foldl (fun s q => (handleSignalStart s P q).1) st).queuedSignals P).getD []
          = (mapGet st.queuedSignals P).getD [] ++ sigs := by
  induction sigs with
  | nil => intro st _ _; simp
  | cons q rest ih =>
    intro st h1 h2
    have step := enqueue_step st P q h1 h2
    simp only [List.foldl_cons]
    have h1' : mapGet ((handleSignalStart st P q).1).peers P = none := by
      rw [step.2.2.1]; exact h1
    have h2' : setHas ((handleSignalStart st P q).1).connectingPeers P = true := by
      rw [step.2.2.2.1]; exact h2
    obtain ⟨ha, hb, hc⟩ := ih (handleSignalStart st P q).1 h1' h2'
    refine ⟨?_, ?_, ?_⟩
    · rw [ha, step.2.2.1]
    · rw [hb, step.2.2.2.1]
    · rw [hc, step.2.1, mapGet_mapSet_self]
      simp

/-- Resuming the inbound-creation branch after the credential fetch settles
stores a fresh non-initiator peer carrying exactly the queued signals, in
order, followed by the triggering offer. -/
theorem resume_spec (st : ClientState) (P : String) (sig : Signal)
    (fr : Except String (List IceServer)) (hoff : sig.type = some "offer") :
    (handleSignalResume st P sig fr).replayed = (mapGet st.queuedSignals P).getD []
    ∧ mapGet (handleSignalResume st P sig fr).state.peers P
        = some ⟨false, false, false, "stable", (mapGet st.queuedSignals P).getD [] ++ [sig]⟩
    ∧ (handleSignalResume st P sig fr).finalOutcome = .applied := by
  unfold handleSignalResume processWithPeer
  simp [hoff, mapGet_mapSet_self]

/-- The impolite side of an offer collision (local id not smaller) returns
without touching any state. -/
theorem collision_impolite_spec (st : ClientState) (P : String) (p : PeerConn)
    (sig : Signal) (fr : Except String (List IceServer))
    (hp : mapGet st.peers P = some p) (hd : p.destroyed = false)
    (hs : p.signalingState ≠ "stable") (ht : sig.type = some "offer")
    (hlt : jsLt st.currentUserId P = false) :
    handleWebRTCSignal st P sig fr = ⟨st, [], [], .ignoredOfferImpolite⟩ := by
  simp [handleWebRTCSignal, handleSignalStart, hp, ht, hd, hs, hlt]

/-- The polite side of an offer collision (local id smaller) destroys its
own attempt and accepts the incoming offer as a fresh non-initiator
connection. -/
theorem collision_polite_spec (st : ClientState) (P : String) (p : PeerConn)
    (sig : Signal) (fr : Except String (List IceServer))
    (hp : mapGet st.peers P = some p) (hd : p.destroyed = false)
    (hs : p.signalingState ≠ "stable") (ht : sig.type = some "offer")
    (hlt : jsLt st.currentUserId P = true) :
    (handleWebRTCSignal st P sig fr).finalOutcome = .applied
    ∧ mapGet (handleWebRTCSignal st P sig fr).state.peers P
        = some ⟨false, false, false, "stable", (mapGet st.queuedSignals P).getD [] ++ [sig]⟩ := by
  have h := resume_spec
    { st with peers := mapDelete st.peers P,
              connectingPeers := setAdd (setDelete st.connectingPeers P) P } P sig fr ht
  simp [handleWebRTCSignal, handleSignalStart, afterCollision,
    unknownPeerPath, setHas_setDelete, hp, ht, hd, hs, hlt] at h ⊢
  exact ⟨h.2.2, h.2.1⟩

/-! ## Claim theorems -/

/-- Claim C1: when an offer arrives from peer `P` whose local connection
object exists, is not destroyed, and is mid-negotiation (signaling state not
`stable`), the collision is resolved by lexicographic id comparison: the
side with the smaller id destroys its own attempt and accepts the offer as
non-initiator, while the other side returns leaving its state untouched;
since for distinct ids exactly one side is smaller, exactly one connection
object per peer pair survives the collision. -/
theorem c1_offer_collision_resolution (stA stB : ClientState) (a b : String)
    (pA pB : PeerConn) (offer : Signal)
    (frA frB : Except String (List IceServer))
    (hab : a ≠ b) (ha : stA.currentUserId = a) (hb : stB.currentUserId = b)
    (hpA : mapGet stA.peers b = some pA) (hpB : mapGet stB.peers a = some pB)
    (hdA : pA.destroyed = false) (hdB : pB.destroyed = false)
    (hsA : pA.signalingState ≠ "stable") (hsB : pB.signalingState ≠ "stable")
    (hoff : offer.type = some "offer") :
    (jsLt a b = true ∨ jsLt b a = true)
    ∧ ¬(jsLt a b = true ∧ jsLt b a = true)
    ∧ (jsLt a b = true →
        (handleWebRTCSignal stA b offer frA).finalOutcome = .applied
        ∧ mapGet (handleWebRTCSignal stA b offer frA).state.peers b
            = some ⟨false, false, false, "stable", (mapGet stA.queuedSignals b).getD [] ++ [offer]⟩
        ∧ handleWebRTCSignal stB a offer frB = ⟨stB, [], [], .ignoredOfferImpolite⟩)
    ∧ (jsLt b a = true →
        (handleWebRTCSignal stB a offer frB).finalOutcome = .applied
        ∧ mapGet (handleWebRTCSignal stB a offer frB).state.peers a
            = some ⟨false, false, false, "stable", (mapGet stB.queuedSignals a).getD [] ++ [offer]⟩
        ∧ handleWebRTCSignal stA b offer frA = ⟨stA, [], [], .ignoredOfferImpolite⟩) := by
  refine ⟨jsLt_or_of_ne a b hab, ?_, ?_, ?_⟩
  · rintro ⟨h1, h2⟩
    have := jsLt_asymm a b h1
    rw [h2] at this
    simp at this
  · intro h1
    have hpol := collision_polite_spec stA b pA offer frA hpA hdA hsA hoff (ha ▸ h1)
    have himp := collision_impolite_spec stB a pB offer frB hpB hdB hsB hoff
      (hb ▸ jsLt_asymm a b h1)
    exact ⟨hpol.1, hpol.2, himp⟩
  · intro h2
    have hpol := collision_polite_spec stB a pB offer frB hpB hdB hsB hoff (hb ▸ h2)
    have himp := collision_impolite_spec stA b pA offer frA hpA hdA hsA hoff
      (ha ▸ jsLt_asymm b a h2)
    exact ⟨hpol.1, hpol.2, himp⟩

/-- Witness for C1 at the concrete pair of nodes `a` and `b`, both
mid-negotiation toward each other, each receiving the other's offer. -/
theorem c1_offer_collision_resolution_witness :
    (jsLt "a" "b" = true ∨ jsLt "b" "a" = true)
    ∧ ¬(jsLt "a" "b" = true ∧ jsLt "b" "a" = true)
    ∧ (jsLt "a" "b" = true →
        (handleWebRTCSignal exStA "b" exOffer (.ok [])).finalOutcome = .applied
        ∧ mapGet (handleWebRTCSignal exStA "b" exOffer (.ok [])).state.peers "b"
            = some ⟨false, false, false, "stable", (mapGet exStA.queuedSignals "b").getD [] ++ [exOffer]⟩
        ∧ handleWebRTCSignal exStB "a" exOffer (.ok []) = ⟨exStB, [], [], .ignoredOfferImpolite⟩)
    ∧ (jsLt "b" "a" = true →
        (handleWebRTCSignal exStB "a" exOffer (.ok [])).finalOutcome = .applied
        ∧ mapGet (handleWebRTCSignal exStB "a" exOffer (.ok [])).state.peers "a"
            = some ⟨false, false, false, "stable", (mapGet exStB.queuedSignals "a").getD [] ++ [exOffer]⟩
        ∧ handleWebRTCSignal exStA "b" exOffer (.ok []) = ⟨exStA, [], [], .ignoredOfferImpolite⟩) :=
  c1_offer_collision_resolution exStA exStB "a" "b" exPeerMid exPeerMid exOffer (.ok []) (.ok [])
    (by decide) rfl rfl (by decide) (by decide) rfl rfl (by decide) (by decide) rfl

/-- Claim C2: signals from peer `P` arriving while `P` is in the connecting
set and has no connection object are appended to `P`'s queue in arrival
order; when the connection object is created, the whole queue is replayed
into it in that same order (followed by the triggering offer), and no
queued signal is dropped. -/
theorem c2_pending_signal_queue_fifo (st : ClientState) (P : String)
    (sigs : List Signal) (offer : Signal) (fr : Except String (List IceServer))
    (hpeer : mapGet st.peers P = none)
    (hconn : setHas st.connectingPeers P = true)
    (hoff : offer.type = some "offer") :
    (mapGet (sigs.foldl (fun s q => (handleSignalStart s P q).1) st).queuedSignals P).getD []
        = (mapGet st.queuedSignals P).getD [] ++ sigs
    ∧ (handleSignalResume (sigs.foldl (fun s q => (handleSignalStart s P q).1) st)
        P offer fr).replayed = (mapGet st.queuedSignals P).getD [] ++ sigs
    ∧ mapGet (handleSignalResume (sigs.foldl (fun s q => (handleSignalStart s P q).1) st)
        P offer fr).state.peers P
        = some ⟨false, false, false, "stable",
            ((mapGet st.queuedSignals P).getD [] ++ sigs) ++ [offer]⟩ := by
  obtain ⟨_, _, hc⟩ := enqueue_fold_spec P sigs st hpeer hconn
  obtain ⟨r1, r2, _⟩ :=
    resume_spec (sigs.foldl (fun s q => (handleSignalStart s P q).1) st) P offer fr hoff
  rw [hc] at r1 r2
  exact ⟨hc, r1, r2⟩

/-- Witness for C2: two ICE-candidate signals queued during the fetch are
replayed in arrival order into the peer created for `bob`. -/
theorem c2_pending_signal_queue_fifo_witness :
    (mapGet ([⟨none, 1⟩, ⟨none, 2⟩].foldl (fun s q => (handleSignalStart s "bob" q).1)
        exStQueue).queuedSignals "bob").getD []
        = (mapGet exStQueue.queuedSignals "bob").getD [] ++ [⟨none, 1⟩, ⟨none, 2⟩]
    ∧ (handleSignalResume ([⟨none, 1⟩, ⟨none, 2⟩].foldl (fun s q => (handleSignalStart s "bob" q).1)
        exStQueue) "bob" ⟨some "offer", 0⟩ (.ok [])).replayed
        = (mapGet exStQueue.queuedSignals "bob").getD [] ++ [⟨none, 1⟩, ⟨none, 2⟩]
    ∧ mapGet (handleSignalResume ([⟨none, 1⟩, ⟨none, 2⟩].foldl
        (fun s q => (handleSignalStart s "bob" q).1) exStQueue)
        "bob" ⟨some "offer", 0⟩ (.ok [])).state.peers "bob"
        = some ⟨false, false, false, "stable",
            ((mapGet exStQueue.queuedSignals "bob").getD [] ++ [⟨none, 1⟩, ⟨none, 2⟩]) ++ [⟨some "offer", 0⟩]⟩ :=
  c2_pending_signal_queue_fifo exStQueue "bob" [⟨none, 1⟩, ⟨none, 2⟩] ⟨some "offer", 0⟩ (.ok [])
    (by decide) (by decide) rfl

/-- Claim C3 counterexample: a channel-close event for `bob` while request
`req1` is outstanding issues no rejection at all and leaves `req1` pending,
so pending requests are not rejected with any error when the channel
closes. -/
theorem c3_close_does_not_reject_counterexample :
    (onPeerClose ⟨"me", [("bob", exPeerStable)], [], [], ["req1"]⟩ "bob").2 = []
    ∧ (onPeerClose ⟨"me", [("bob", exPeerStable)], [], [], ["req1"]⟩ "bob").1.pendingRequests
        = ["req1"] :=
  ⟨rfl, rfl⟩

/-- Claim C3 as amended: when a peer's channel closes, the close handler
only removes the peer object and rejects nothing — every outstanding
request stays pending and is settled only by its own timeout, which rejects
it with a `Request timeout` error (there is no ChannelClosed rejection in
the code). -/
theorem c3_close_leaves_requests_to_their_timeouts (st : ClientState)
    (userId requestId : String) :
    (onPeerClose st userId).2 = []
    ∧ (onPeerClose st userId).1.pendingRequests = st.pendingRequests
    ∧ mapGet (onPeerClose st userId).1.peers userId = none
    ∧ (onRequestTimeout st requestId).2 = [(requestId, "Request timeout")]
    ∧ requestId ∉ (onRequestTimeout st requestId).1.pendingRequests := by
  refine ⟨rfl, rfl, mapGet_mapDelete st.peers userId, rfl, ?_⟩
  intro hmem
  simp [onRequestTimeout, List.mem_filter] at hmem

/-- Claim C4: when the TURN credential fetch fails, the outbound
`createPeerConnection` catch block calls `turnService.getFallbackTurnServers()`,
a method that does not exist on `TurnService`, so the attempt dies with a
`TypeError` instead of degrading to the STUN-only fallback; only the inbound
`handleWebRTCSignal` creation branch actually falls back to the two static
Google STUN servers. -/
theorem c4_outbound_fallback_method_missing (e : String) (st : ClientState)
    (fromUserId : String) (signal : Signal) :
    createPeerConnectionIce (.error e) = .jsTypeError "getFallbackTurnServers"
    ∧ turnServiceMethods.contains "getFallbackTurnServers" = false
    ∧ (handleSignalResume st fromUserId signal (.error e)).usedIceServers = googleStunFallback :=
  ⟨rfl, rfl, rfl⟩

/-- Claim C5: a successful fetch at `fetchTime` caches the token with expiry
`fetchTime + ttl * 800` ms (80% of a TTL given in seconds), the cache is
served only while `now` is strictly before that expiry, and hence any
configuration served from cache still has at least `ttl * 200` ms — 20% of
its original validity — of real lifetime left. -/
theorem c5_cache_expiry_safety_margin (st : TurnServiceState)
    (fetchTime now freshId : Nat) (tok : TurnTokenResponse)
    (hcached : (getTurnServersStep (settleFetch st fetchTime (.ok tok)) now freshId).2
        = .cached) :
    (settleFetch st fetchTime (.ok tok)).tokenExpiry = fetchTime + tok.ttl * 800
    ∧ now < fetchTime + tok.ttl * 800
    ∧ tok.ttl * 200 ≤ (fetchTime + tok.ttl * 1000) - now := by
  have hexp : (settleFetch st fetchTime (.ok tok)).tokenExpiry = fetchTime + tok.ttl * 800 := rfl
  by_cases h : cacheValid (settleFetch st fetchTime (.ok tok)) now
  · have hlt : now < (settleFetch st fetchTime (.ok tok)).tokenExpiry := by
      simp [cacheValid] at h
      exact h.2
    rw [hexp] at hlt
    exact ⟨hexp, hlt, by omega⟩
  · exfalso
    simp [getTurnServersStep, h] at hcached
    rcases hfp : (settleFetch st fetchTime (.ok tok)).fetchPromise with _ | fid <;>
      simp [hfp] at hcached

/-- Witness for C5: a token with a 10-second TTL fetched at time 1000 and
served from cache immediately. -/
theorem c5_cache_expiry_safety_margin_witness :
    (settleFetch ⟨none, 0, none⟩ 1000 (.ok ⟨some [], 10, none, none⟩)).tokenExpiry
        = 1000 + 10 * 800
    ∧ 1000 < 1000 + 10 * 800
    ∧ 10 * 200 ≤ (1000 + 10 * 1000) - 1000 :=
  c5_cache_expiry_safety_margin ⟨none, 0, none⟩ 1000 1000 0 ⟨some [], 10, none, none⟩ (by decide)

/-- Claim C6: while a fetch is in flight (`fetchPromise` non-null), a
`getTurnServers` call never starts another fetch and never mutates the
state; when the cache check fails it awaits exactly the in-flight promise
(so overlapping callers share that one request); and settlement — success
or failure — clears the in-flight marker. -/
theorem c6_single_flight (st : TurnServiceState) (now freshId fid : Nat)
    (hf : st.fetchPromise = some fid) :
    ((getTurnServersStep st now freshId).1 = st
      ∧ ∀ g, (getTurnServersStep st now freshId).2 ≠ .startFetch g)
    ∧ (cacheValid st now = false →
        getTurnServersStep st now freshId = (st, .awaitExisting fid))
    ∧ (∀ t r, (settleFetch st t r).fetchPromise = none) := by
  have hsettle : ∀ t r, (settleFetch st t r).fetchPromise = none := by
    intro t r; cases r <;> simp [settleFetch]
  unfold getTurnServersStep
  by_cases h : cacheValid st now
  · simp [h, hf]
    exact hsettle
  · simp [h, hf]
    exact hsettle

/-- Witness for C6: an empty cache with fetch number 7 in flight. -/
theorem c6_single_flight_witness :
    ((getTurnServersStep ⟨none, 0, some 7⟩ 0 1).1 = ⟨none, 0, some 7⟩
      ∧ ∀ g, (getTurnServersStep ⟨none, 0, some 7⟩ 0 1).2 ≠ .startFetch g)
    ∧ (cacheValid ⟨none, 0, some 7⟩ 0 = false →
        getTurnServersStep ⟨none, 0, some 7⟩ 0 1 = (⟨none, 0, some 7⟩, .awaitExisting 7))
    ∧ (∀ t r, (settleFetch ⟨none, 0, some 7⟩ t r).fetchPromise = none) :=
  c6_single_flight ⟨none, 0, some 7⟩ 0 1 7 rfl

/-- Claim C7 counterexample: seven consecutive disconnects from a fresh
counter produce the five linearly-scaled attempts and then surface the
terminal error status twice, not exactly once. -/
theorem c7_terminal_error_not_exactly_once :
    (runDisconnects ⟨0, "disconnected", none⟩ 7).2 =
      [.scheduled 1 2000, .scheduled 2 4000, .scheduled 3 6000, .scheduled 4 8000,
       .scheduled 5 10000, .terminalError "Max reconnection attempts reached",
       .terminalError "Max reconnection attempts reached"]
    ∧ ((runDisconnects ⟨0, "disconnected", none⟩ 7).2.filter isTerminalError).length = 2 :=
  ⟨rfl, rfl⟩

/-- Claim C7 as amended: below the cap each disconnect schedules attempt
`n+1` after `reconnectDelay * (n+1)` ms; the counter never exceeds the cap
of 5; at or past the cap nothing is scheduled and the terminal error status
`Max reconnection attempts reached` is surfaced on that and every further
disconnect (at least once, not exactly once); a successful connect resets
the counter to 0. -/
theorem c7_reconnect_backoff_amended :
    (∀ st : ReconnectState, st.reconnectAttempts < maxReconnectAttempts →
      (scheduleReconnect st).1.reconnectAttempts = st.reconnectAttempts + 1
      ∧ (scheduleReconnect st).2
          = .scheduled (st.reconnectAttempts + 1) (reconnectDelay * (st.reconnectAttempts + 1)))
    ∧ (∀ st : ReconnectState, st.reconnectAttempts ≤ maxReconnectAttempts →
        (scheduleReconnect st).1.reconnectAttempts ≤ maxReconnectAttempts)
    ∧ (∀ st : ReconnectState, maxReconnectAttempts ≤ st.reconnectAttempts →
        (scheduleReconnect st).2 = .terminalError "Max reconnection attempts reached"
        ∧ (scheduleReconnect st).1.reconnectAttempts = st.reconnectAttempts
        ∧ (scheduleReconnect st).1.status = "error"
        ∧ (scheduleReconnect st).1.error = some "Max reconnection attempts reached")
    ∧ (∀ st : ReconnectState, (onConnectSuccess st).reconnectAttempts = 0) := by
  refine ⟨?_, ?_, ?_, ?_⟩
  · intro st h
    have hn : ¬ st.reconnectAttempts ≥ maxReconnectAttempts := by omega
    simp [scheduleReconnect, hn]
  · intro st h
    by_cases hc : st.reconnectAttempts ≥ maxReconnectAttempts
    · simp [scheduleReconnect, hc]; omega
    · simp [scheduleReconnect, hc]; omega
  · intro st h
    have hc : st.reconnectAttempts ≥ maxReconnectAttempts := h
    simp [scheduleReconnect, hc]
  · intro st
    rfl

/-- Witness for the amended C7 at counters 2, 5 and a successful connect. -/
theorem c7_reconnect_backoff_amended_witness :
    ((scheduleReconnect ⟨2, "disconnected", none⟩).1.reconnectAttempts = 2 + 1
      ∧ (scheduleReconnect ⟨2, "disconnected", none⟩).2
          = .scheduled (2 + 1) (reconnectDelay * (2 + 1)))
    ∧ (scheduleReconnect ⟨5, "disconnected", none⟩).1.reconnectAttempts ≤ maxReconnectAttempts
    ∧ ((scheduleReconnect ⟨5, "disconnected", none⟩).2
          = .terminalError "Max reconnection attempts reached"
        ∧ (scheduleReconnect ⟨5, "disconnected", none⟩).1.reconnectAttempts = 5
        ∧ (scheduleReconnect ⟨5, "disconnected", none⟩).1.status = "error"
        ∧ (scheduleReconnect ⟨5, "disconnected", none⟩).1.error
            = some "Max reconnection attempts reached")
    ∧ (onConnectSuccess ⟨3, "connected", none⟩).reconnectAttempts = 0 :=
  ⟨c7_reconnect_backoff_amended.1 ⟨2, "disconnected", none⟩ (by decide),
   c7_reconnect_backoff_amended.2.1 ⟨5, "disconnected", none⟩ (by decide),
   c7_reconnect_backoff_amended.2.2.1 ⟨5, "disconnected", none⟩ (by decide),
   c7_reconnect_backoff_amended.2.2.2 ⟨3, "connected", none⟩⟩

/-- Claim C8: a credential response carrying truthy `username` and
`password` but no `ice_servers` is completed with one STUN entry and three
TURN entries (udp, tcp, tcp:443) carrying the returned username and the
returned password as credential; a response that already has `ice_servers`
is returned unchanged. -/
theorem c8_assemble_ice_servers :
    (∀ (data : TurnTokenResponse) (u p : String),
      data.ice_servers = none → data.username = some u → u ≠ "" →
      data.password = some p → p ≠ "" →
      (assembleIceServers data).ice_servers = some
        [⟨"stun:global.stun.twilio.com:3478", none, none⟩,
         ⟨"turn:global.turn.twilio.com:3478?transport=udp", some u, some p⟩,
         ⟨"turn:global.turn.twilio.com:3478?transport=tcp", some u, some p⟩,
         ⟨"turn:global.turn.twilio.com:443?transport=tcp", some u, some p⟩]
      ∧ (assembleIceServers data).ttl = data.ttl
      ∧ (assembleIceServers data).username = data.username
      ∧ (assembleIceServers data).password = data.password)
    ∧ (∀ (data : TurnTokenResponse) (l : List IceServer),
        data.ice_servers = some l → assembleIceServers data = data) := by
  constructor
  · rintro ⟨is, ttl, un, pw⟩ u p h1 h2 h3 h4 h5
    obtain rfl : is = none := h1
    obtain rfl : un = some u := h2
    obtain rfl : pw = some p := h4
    simp [assembleIceServers, h3, h5]
  · rintro ⟨is, ttl, un, pw⟩ l h1
    obtain rfl : is = some l := h1
    cases un <;> cases pw <;> rfl

/-- Witness for C8: bare Twilio credentials are assembled; a response that
already carries a server list is untouched. -/
theorem c8_assemble_ice_servers_witness :
    ((assembleIceServers ⟨none, 3600, some "u1", some "p1"⟩).ice_servers = some
        [⟨"stun:global.stun.twilio.com:3478", none, none⟩,
         ⟨"turn:global.turn.twilio.com:3478?transport=udp", some "u1", some "p1"⟩,
         ⟨"turn:global.turn.twilio.com:3478?transport=tcp", some "u1", some "p1"⟩,
         ⟨"turn:global.turn.twilio.com:443?transport=tcp", some "u1", some "p1"⟩]
      ∧ (assembleIceServers ⟨none, 3600, some "u1", some "p1"⟩).ttl
          = (⟨none, 3600, some "u1", some "p1"⟩ : TurnTokenResponse).ttl
      ∧ (assembleIceServers ⟨none, 3600, some "u1", some "p1"⟩).username
          = (⟨none, 3600, some "u1", some "p1"⟩ : TurnTokenResponse).username
      ∧ (assembleIceServers ⟨none, 3600, some "u1", some "p1"⟩).password
          = (⟨none, 3600, some "u1", some "p1"⟩ : TurnTokenResponse).password)
    ∧ assembleIceServers ⟨some googleStunFallback, 3600, none, none⟩
        = ⟨some googleStunFallback, 3600, none, none⟩ :=
  ⟨c8_assemble_ice_servers.1 ⟨none, 3600, some "u1", some "p1"⟩ "u1" "p1" rfl rfl
      (by decide) rfl (by decide),
   c8_assemble_ice_servers.2 ⟨some googleStunFallback, 3600, none, none⟩ googleStunFallback rfl⟩

/-- Claim C9: a signal for a peer with no connection object and no attempt
in progress is dropped with no state change unless it is an offer; an offer
creates a fresh non-initiator connection for that peer and applies the
offer to it. -/
theorem c9_unknown_peer_dispatch (st : ClientState) (P : String) (sig : Signal)
    (fr : Except String (List IceServer))
    (hpeer : mapGet st.peers P = none)
    (hconn : setHas st.connectingPeers P = false) :
    (sig.type ≠ some "offer" →
      handleWebRTCSignal st P sig fr = ⟨st, [], [], .droppedUnknownNonOffer sig.type⟩)
    ∧ (sig.type = some "offer" →
      (handleWebRTCSignal st P sig fr).finalOutcome = .applied
      ∧ mapGet (handleWebRTCSignal st P sig fr).state.peers P
          = some ⟨false, false, false, "stable", (mapGet st.queuedSignals P).getD [] ++ [sig]⟩) := by
  constructor
  · intro hne
    simp [handleWebRTCSignal, handleSignalStart, afterCollision, unknownPeerPath,
      hpeer, hconn, hne]
  · intro hoff
    have h := resume_spec { st with connectingPeers := setAdd st.connectingPeers P } P sig fr hoff
    simp [handleWebRTCSignal, handleSignalStart, afterCollision, unknownPeerPath,
      hpeer, hconn, hoff] at h ⊢
    exact ⟨h.2.2, h.2.1⟩

/-- Witness for C9: a bare ICE candidate for unknown `bob` is dropped with
the state returned exactly unchanged. -/
theorem c9_unknown_peer_dispatch_witness :
    ((⟨none, 5⟩ : Signal).type ≠ some "offer" →
      handleWebRTCSignal exStEmpty "bob" ⟨none, 5⟩ (.error "x")
        = ⟨exStEmpty, [], [], .droppedUnknownNonOffer (⟨none, 5⟩ : Signal).type⟩)
    ∧ ((⟨none, 5⟩ : Signal).type = some "offer" →
      (handleWebRTCSignal exStEmpty "bob" ⟨none, 5⟩ (.error "x")).finalOutcome = .applied
      ∧ mapGet (handleWebRTCSignal exStEmpty "bob" ⟨none, 5⟩ (.error "x")).state.peers "bob"
          = some ⟨false, false, false, "stable",
              (mapGet exStEmpty.queuedSignals "bob").getD [] ++ [⟨none, 5⟩]⟩) :=
  c9_unknown_peer_dispatch exStEmpty "bob" ⟨none, 5⟩ (.error "x") (by decide) (by decide)

/-- Claim C10: an answer arriving for a live peer whose connection is in the
`stable` signaling state is discarded without being applied, the whole
client state returned unchanged. -/
theorem c10_stale_answer_discarded (st : ClientState) (P : String) (p : PeerConn)
    (sig : Signal) (fr : Except String (List IceServer))
    (hp : mapGet st.peers P = some p) (hd : p.destroyed = false)
    (hs : p.signalingState = "stable") (ht : sig.type = some "answer") :
    handleWebRTCSignal st P sig fr = ⟨st, [], [], .ignoredAnswerStable⟩ := by
  simp [handleWebRTCSignal, handleSignalStart, afterCollision, processWithPeer,
    hp, hd, hs, ht]

/-- Witness for C10: a stale answer for the stable connection to `bob`. -/
theorem c10_stale_answer_discarded_witness :
    handleWebRTCSignal exStStable "bob" ⟨some "answer", 1⟩ (.error "x")
      = ⟨exStStable, [], [], .ignoredAnswerStable⟩ :=
  c10_stale_answer_discarded exStStable "bob" exPeerStable ⟨some "answer", 1⟩ (.error "x")
    (by decide) rfl rfl rfl

end PantheonWeb
